import Mathlib

/-!
Shallow embedding of
`src/query-engine/connectors/mongodb-query-connector/src/interface/connection.rs`
(the MongoDB connection / dispatch layer of prisma-engines) and proofs of the
spec claims about it.

The file under verification is a dispatch layer: every `WriteOperations` and
`ReadOperations` method of `MongoDbConnection` opens a `catch` scope and
invokes one Operation Router function with `(&self.database, &mut self.session,
…arguments)`.  The routers (`write::…`, `read::…`, `aggregate::aggregate`), the
`catch` wrapper, the `MongoError` type and `MongoDbTransaction::new` live in
other files of the repository; following the spec they are treated as external
collaborators, modelled by either abstract carriers, a router environment
(`Routers`), or definitions written from the spec's words (marked
`Modelled from the spec:`).

Mutation of `&mut self.session` is embedded by explicit state passing: every
method returns its result paired with the session it leaves behind.
-/

/-! ### Carrier types for external, pass-through data

The connection layer never inspects these values; it only forwards them to the
routers.  Each is embedded as a one-field carrier with decidable equality so
witnesses can be checked by evaluation. -/

/-- The backend session (`mongodb::ClientSession`): a stateful conversation
handle; routers may mutate it. -/
structure ClientSession where
  state : Nat
deriving DecidableEq

/-- Handle to a mongo database (`mongodb::Database`), immutable at this layer. -/
structure Database where
  id : Nat
deriving DecidableEq

/-- Schema metadata for a record type (`prisma_models::Model`). -/
structure Model where
  id : Nat
deriving DecidableEq

/-- One record's create/update payload (`WriteArgs`). -/
structure WriteArgs where
  id : Nat
deriving DecidableEq

/-- Predicate plus optional explicit identities selecting existing records
(`connector_interface::RecordFilter`). -/
structure RecordFilter where
  id : Nat
deriving DecidableEq

/-- Minimal projected identity of a record (`prisma_models::SelectionResult`). -/
structure SelectionResult where
  id : Nat
deriving DecidableEq

/-- Schema metadata for a relation field (`RelationFieldRef`). -/
structure RelationFieldRef where
  id : Nat
deriving DecidableEq

/-- Schema metadata for a scalar field (`ScalarFieldRef`). -/
structure ScalarFieldRef where
  id : Nat
deriving DecidableEq

/-- A raw engine value (`PrismaValue`). -/
structure PrismaValue where
  id : Nat
deriving DecidableEq

/-- A read filter (`connector_interface::Filter`). -/
structure QueryFilter where
  id : Nat
deriving DecidableEq

/-- Filter + ordering + pagination (`connector_interface::QueryArguments`). -/
structure QueryArguments where
  id : Nat
deriving DecidableEq

/-- Which scalar fields to populate (`FieldSelection`). -/
structure FieldSelection where
  id : Nat
deriving DecidableEq

/-- Which relation-derived aggregates to populate (`RelAggregationSelection`). -/
structure RelAggregationSelection where
  id : Nat
deriving DecidableEq

/-- One requested aggregation (`connector_interface::AggregationSelection`). -/
structure AggregationSelection where
  id : Nat
deriving DecidableEq

/-- One resulting aggregation row (`connector_interface::AggregationRow`). -/
structure AggregationRow where
  id : Nat
deriving DecidableEq

/-- A single fetched record (`SingleRecord`). -/
structure SingleRecord where
  id : Nat
deriving DecidableEq

/-- A page of fetched records (`ManyRecords`). -/
structure ManyRecords where
  id : Nat
deriving DecidableEq

/-- The native-upsert request payload (`connector_interface::NativeUpsert`). -/
structure NativeUpsert where
  id : Nat
deriving DecidableEq

/-- An open-ended structured result value (`serde_json::Value`). -/
structure JsonValue where
  id : Nat
deriving DecidableEq

/-- The update-type flag passed to the write router
(`connector_interface::UpdateType`). -/
inductive UpdateType where
  | one
  | many
deriving DecidableEq

/-! ### Errors -/

/-- Modelled from the spec: the backend error type of the connector
(`crate::error::MongoError`, defined outside the verified file).  The spec's
outbound boundary requires "an error type supporting at least
`Unsupported(reason)` and wrapped-backend-error variants". -/
inductive MongoError where
  /-- A requested capability with no backend mapping. -/
  | unsupported (reason : String)
  /-- A wrapped backend-native (driver) failure. -/
  | driver (code : Nat) (message : String)
deriving DecidableEq

/-- Modelled from the spec: the engine's structured connector error type
(`connector_interface::error::ConnectorError`, defined outside the verified
file).  It is a distinct type from the backend error type. -/
inductive ConnectorError where
  /-- Structured "unsupported feature" error. -/
  | unsupportedFeature (reason : String)
  /-- Structured error carrying the backend error's context. -/
  | rawDatabaseError (code : Nat) (message : String)
deriving DecidableEq

/-- Modelled from the spec: `MongoError::into_connector_error` (in
`error.rs`, outside the verified file) re-expresses a backend-native failure as
a structured connector error carrying the backend context, and maps the
`Unsupported` variant to the structured unsupported-feature error. -/
def MongoError.into_connector_error : MongoError → ConnectorError
  | MongoError.unsupported reason => ConnectorError.unsupportedFeature reason
  | MongoError.driver code message => ConnectorError.rawDatabaseError code message

/-- Modelled from the spec: the Error Translator scope (`catch` in
`interface/mod.rs`, outside the verified file).  It runs exactly one backend
computation to completion and maps any raised backend failure through
`into_connector_error` before returning; successful results pass through
unchanged.  The computation is embedded as its outcome paired with the session
state it leaves behind. -/
def catchScope {α : Type} : Except MongoError α × ClientSession → Except ConnectorError α × ClientSession
  | (Except.ok o, s) => (Except.ok o, s)
  | (Except.error err, s) => (Except.error err.into_connector_error, s)

/-! ### The connection and the router environment -/

/-- `MongoDbConnection`: owns the session and a handle to the database
(`connection.rs`, lines 16-22). -/
structure MongoDbConnection where
  session : ClientSession
  database : Database
deriving DecidableEq

/-- Modelled from the spec: `MongoDbTransaction` (in `transaction.rs`, outside
the verified file) wraps the connection's session for one atomic unit of work. -/
structure MongoDbTransaction where
  session : ClientSession
  database : Database
deriving DecidableEq

/-- The Operation Routers (`write::…`, `read::…`, `aggregate::aggregate`) and
`MongoDbTransaction::new`, all external collaborators of the verified file.
Per the spec each router is a function of
`(database handle, mutable session, validated arguments)` to
`(typed result | backend failure)`; session mutation is embedded by returning
the new session.  `new_transaction` models `MongoDbTransaction::new`, whose
construction fails with an already-translated connector error if the backend
cannot start a session-level transaction. -/
structure Routers where
  create_record : Database → ClientSession → Model → WriteArgs →
    Except MongoError SelectionResult × ClientSession
  create_records : Database → ClientSession → Model → List WriteArgs → Bool →
    Except MongoError Nat × ClientSession
  update_records : Database → ClientSession → Model → RecordFilter → WriteArgs → UpdateType →
    Except MongoError (List SelectionResult) × ClientSession
  delete_records : Database → ClientSession → Model → RecordFilter →
    Except MongoError Nat × ClientSession
  m2m_connect : Database → ClientSession → RelationFieldRef → SelectionResult →
    List SelectionResult → Except MongoError Unit × ClientSession
  m2m_disconnect : Database → ClientSession → RelationFieldRef → SelectionResult →
    List SelectionResult → Except MongoError Unit × ClientSession
  execute_raw : Database → ClientSession → List (String × PrismaValue) →
    Except MongoError Nat × ClientSession
  query_raw : Database → ClientSession → Option Model → List (String × PrismaValue) →
    Option String → Except MongoError JsonValue × ClientSession
  get_single_record : Database → ClientSession → Model → QueryFilter → FieldSelection →
    List RelAggregationSelection → Except MongoError (Option SingleRecord) × ClientSession
  get_many_records : Database → ClientSession → Model → QueryArguments → FieldSelection →
    List RelAggregationSelection → Except MongoError ManyRecords × ClientSession
  get_related_m2m_record_ids : Database → ClientSession → RelationFieldRef →
    List SelectionResult →
    Except MongoError (List (SelectionResult × SelectionResult)) × ClientSession
  aggregate : Database → ClientSession → Model → QueryArguments → List AggregationSelection →
    List ScalarFieldRef → Option QueryFilter →
    Except MongoError (List AggregationRow) × ClientSession
  new_transaction : MongoDbConnection → Except ConnectorError MongoDbTransaction × ClientSession

/-- Outcome of a call that may hit a programming-error class failure
(a Rust `unimplemented!` panic) instead of returning a connector `Result`:
the two classes are distinct constructors. -/
inductive PanicOr (α : Type) where
  /-- A programming-error class failure: the caller violated the contract. -/
  | panic (message : String)
  /-- A normal (possibly failed, but recoverable) outcome. -/
  | value (out : α)
deriving DecidableEq

/-! ### The `Connection` implementation (`connection.rs`, lines 26-47) -/

/-- `start_transaction` (lines 28-42): rejects any requested isolation level
with `MongoError::Unsupported` translated into a connector error, otherwise
constructs a `MongoDbTransaction` from the connection, propagating its error
with `?`. -/
def MongoDbConnection.start_transaction (R : Routers) (conn : MongoDbConnection)
    (isolation_level : Option String) :
    Except ConnectorError MongoDbTransaction × ClientSession :=
  if isolation_level.isSome then
    (Except.error (MongoError.unsupported
      "Mongo does not support setting transaction isolation levels.").into_connector_error,
     conn.session)
  else
    match R.new_transaction conn with
    | (Except.ok tx, s) => (Except.ok tx, s)
    | (Except.error e, s) => (Except.error e, s)

/-! ### The `WriteOperations` implementation (lines 49-171) -/

/-- `create_record` (lines 51-58). -/
def MongoDbConnection.create_record (R : Routers) (conn : MongoDbConnection)
    (model : Model) (args : WriteArgs) (_trace_id : Option String) :
    Except ConnectorError SelectionResult × ClientSession :=
  catchScope (R.create_record conn.database conn.session model args)

/-- `create_records` (lines 60-71). -/
def MongoDbConnection.create_records (R : Routers) (conn : MongoDbConnection)
    (model : Model) (args : List WriteArgs) (skip_duplicates : Bool)
    (_trace_id : Option String) : Except ConnectorError Nat × ClientSession :=
  catchScope (R.create_records conn.database conn.session model args skip_duplicates)

/-- `update_records` (lines 73-94): invokes the write router with
`UpdateType::Many`, propagates its failure with `?`, and returns
`result.len()`. -/
def MongoDbConnection.update_records (R : Routers) (conn : MongoDbConnection)
    (model : Model) (record_filter : RecordFilter) (args : WriteArgs)
    (_trace_id : Option String) : Except ConnectorError Nat × ClientSession :=
  catchScope
    (match R.update_records conn.database conn.session model record_filter args
        UpdateType.many with
     | (Except.ok result, s) => (Except.ok result.length, s)
     | (Except.error e, s) => (Except.error e, s))

/-- `update_record` (lines 96-116): invokes the write router with
`UpdateType::One`, propagates its failure with `?`, and returns `res.pop()`
(the last element of the vector, removed, or `None` when empty). -/
def MongoDbConnection.update_record (R : Routers) (conn : MongoDbConnection)
    (model : Model) (record_filter : RecordFilter) (args : WriteArgs)
    (_trace_id : Option String) :
    Except ConnectorError (Option SelectionResult) × ClientSession :=
  catchScope
    (match R.update_records conn.database conn.session model record_filter args
        UpdateType.one with
     | (Except.ok res, s) => (Except.ok res.getLast?, s)
     | (Except.error e, s) => (Except.error e, s))

/-- `delete_records` (lines 118-125). -/
def MongoDbConnection.delete_records (R : Routers) (conn : MongoDbConnection)
    (model : Model) (record_filter : RecordFilter) (_trace_id : Option String) :
    Except ConnectorError Nat × ClientSession :=
  catchScope (R.delete_records conn.database conn.session model record_filter)

/-- `m2m_connect` (lines 127-136). -/
def MongoDbConnection.m2m_connect (R : Routers) (conn : MongoDbConnection)
    (field : RelationFieldRef) (parent_id : SelectionResult)
    (child_ids : List SelectionResult) (_trace_id : Option String) :
    Except ConnectorError Unit × ClientSession :=
  catchScope (R.m2m_connect conn.database conn.session field parent_id child_ids)

/-- `m2m_disconnect` (lines 138-149). -/
def MongoDbConnection.m2m_disconnect (R : Routers) (conn : MongoDbConnection)
    (field : RelationFieldRef) (parent_id : SelectionResult)
    (child_ids : List SelectionResult) (_trace_id : Option String) :
    Except ConnectorError Unit × ClientSession :=
  catchScope (R.m2m_disconnect conn.database conn.session field parent_id child_ids)

/-- `execute_raw` (lines 151-153). -/
def MongoDbConnection.execute_raw (R : Routers) (conn : MongoDbConnection)
    (inputs : List (String × PrismaValue)) : Except ConnectorError Nat × ClientSession :=
  catchScope (R.execute_raw conn.database conn.session inputs)

/-- `query_raw` (lines 155-162). -/
def MongoDbConnection.query_raw (R : Routers) (conn : MongoDbConnection)
    (model : Option Model) (inputs : List (String × PrismaValue))
    (query_type : Option String) : Except ConnectorError JsonValue × ClientSession :=
  catchScope (R.query_raw conn.database conn.session model inputs query_type)

/-- `native_upsert_record` (lines 164-170): `unimplemented!` — a
programming-error class failure raised before anything else happens; no router
runs and the session is untouched. -/
def MongoDbConnection.native_upsert_record (_R : Routers) (_conn : MongoDbConnection)
    (_upsert : NativeUpsert) (_trace_id : Option String) :
    PanicOr (Except ConnectorError SingleRecord × ClientSession) :=
  PanicOr.panic "Native upsert is not currently supported."

/-! ### The `ReadOperations` implementation (lines 173-254) -/

/-- `get_single_record` (lines 175-195). -/
def MongoDbConnection.get_single_record (R : Routers) (conn : MongoDbConnection)
    (model : Model) (filter : QueryFilter) (selected_fields : FieldSelection)
    (aggr_selections : List RelAggregationSelection) (_trace_id : Option String) :
    Except ConnectorError (Option SingleRecord) × ClientSession :=
  catchScope
    (R.get_single_record conn.database conn.session model filter selected_fields
      aggr_selections)

/-- `get_many_records` (lines 197-217). -/
def MongoDbConnection.get_many_records (R : Routers) (conn : MongoDbConnection)
    (model : Model) (query_arguments : QueryArguments) (selected_fields : FieldSelection)
    (aggregation_selections : List RelAggregationSelection) (_trace_id : Option String) :
    Except ConnectorError ManyRecords × ClientSession :=
  catchScope
    (R.get_many_records conn.database conn.session model query_arguments selected_fields
      aggregation_selections)

/-- `get_related_m2m_record_ids` (lines 219-229). -/
def MongoDbConnection.get_related_m2m_record_ids (R : Routers) (conn : MongoDbConnection)
    (from_field : RelationFieldRef) (from_record_ids : List SelectionResult)
    (_trace_id : Option String) :
    Except ConnectorError (List (SelectionResult × SelectionResult)) × ClientSession :=
  catchScope (R.get_related_m2m_record_ids conn.database conn.session from_field
    from_record_ids)

/-- `aggregate_records` (lines 231-253). -/
def MongoDbConnection.aggregate_records (R : Routers) (conn : MongoDbConnection)
    (model : Model) (query_arguments : QueryArguments)
    (selections : List AggregationSelection) (group_by : List ScalarFieldRef)
    (having : Option QueryFilter) (_trace_id : Option String) :
    Except ConnectorError (List AggregationRow) × ClientSession :=
  catchScope
    (R.aggregate conn.database conn.session model query_arguments selections group_by
      having)

/-! ### Concrete instances used by witnesses and counterexamples -/

/-- A successor on session states; stands for a backend interaction that
advanced the session. -/
def bumpSession (s : ClientSession) : ClientSession :=
  ClientSession.mk (s.state + 1)

/-- A concrete session. -/
def sessionEx : ClientSession := ClientSession.mk 0

/-- A concrete database handle. -/
def dbEx : Database := Database.mk 7

/-- A concrete connection. -/
def connEx : MongoDbConnection := MongoDbConnection.mk sessionEx dbEx

/-- A concrete model. -/
def modelEx : Model := Model.mk 1

/-- Concrete write args. -/
def argsEx : WriteArgs := WriteArgs.mk 2

/-- A concrete record filter. -/
def filterEx : RecordFilter := RecordFilter.mk 3

/-- Two concrete record identities. -/
def resA : SelectionResult := SelectionResult.mk 1

/-- Second concrete record identity, distinct from `resA`. -/
def resB : SelectionResult := SelectionResult.mk 2

/-- A concrete backend-native failure. -/
def errEx : MongoError := MongoError.driver 11000 "duplicate key"

/-- A router environment on which every operation succeeds and advances the
session. -/
def RoutersOk : Routers where
  create_record := fun _ s _ _ => (Except.ok resA, bumpSession s)
  create_records := fun _ s _ l _ => (Except.ok l.length, bumpSession s)
  update_records := fun _ s _ _ _ _ => (Except.ok [resA, resB], bumpSession s)
  delete_records := fun _ s _ _ => (Except.ok 0, bumpSession s)
  m2m_connect := fun _ s _ _ _ => (Except.ok (), bumpSession s)
  m2m_disconnect := fun _ s _ _ _ => (Except.ok (), bumpSession s)
  execute_raw := fun _ s _ => (Except.ok 1, bumpSession s)
  query_raw := fun _ s _ _ _ => (Except.ok (JsonValue.mk 5), bumpSession s)
  get_single_record := fun _ s _ _ _ _ => (Except.ok none, bumpSession s)
  get_many_records := fun _ s _ _ _ _ => (Except.ok (ManyRecords.mk 6), bumpSession s)
  get_related_m2m_record_ids := fun _ s _ _ => (Except.ok [], bumpSession s)
  aggregate := fun _ s _ _ _ _ _ => (Except.ok [], bumpSession s)
  new_transaction := fun conn =>
    (Except.ok (MongoDbTransaction.mk (bumpSession conn.session) conn.database),
     bumpSession conn.session)

/-- A router environment on which every operation raises the backend-native
failure `errEx`. -/
def RoutersErr : Routers where
  create_record := fun _ s _ _ => (Except.error errEx, bumpSession s)
  create_records := fun _ s _ _ _ => (Except.error errEx, bumpSession s)
  update_records := fun _ s _ _ _ _ => (Except.error errEx, bumpSession s)
  delete_records := fun _ s _ _ => (Except.error errEx, bumpSession s)
  m2m_connect := fun _ s _ _ _ => (Except.error errEx, bumpSession s)
  m2m_disconnect := fun _ s _ _ _ => (Except.error errEx, bumpSession s)
  execute_raw := fun _ s _ => (Except.error errEx, bumpSession s)
  query_raw := fun _ s _ _ _ => (Except.error errEx, bumpSession s)
  get_single_record := fun _ s _ _ _ _ => (Except.error errEx, bumpSession s)
  get_many_records := fun _ s _ _ _ _ => (Except.error errEx, bumpSession s)
  get_related_m2m_record_ids := fun _ s _ _ => (Except.error errEx, bumpSession s)
  aggregate := fun _ s _ _ _ _ _ => (Except.error errEx, bumpSession s)
  new_transaction := fun conn =>
    (Except.error errEx.into_connector_error, bumpSession conn.session)

/-- A router environment whose write router returns `[resA]` for a
`UpdateType::One` request and `[resA, resB]` for a `UpdateType::Many` request
on the same arguments, leaving the session unchanged. -/
def RoutersSplit : Routers :=
  { RoutersOk with
    update_records := fun _ s _ _ _ t =>
      (Except.ok (match t with
        | UpdateType.one => [resA]
        | UpdateType.many => [resA, resB]), s) }

/-- A router environment agreeing with `RoutersOk` on the write-update router
but differing elsewhere. -/
def RoutersAlt : Routers :=
  { RoutersOk with
    delete_records := fun _ s _ _ => (Except.ok 99, s) }

/-! ### Claim theorems -/

/-- C1: for every `WriteOperations` and `ReadOperations` method that invokes an
Operation Router, a backend-native failure raised by the router surfaces to the
caller as the translated connector error produced by the Error Translator
(`catch`) scope — `Except.error (e.into_connector_error)` — and is never
silently dropped.  The methods' return type is `Except ConnectorError _`, so a
raw `MongoError` can never escape. -/
theorem c1_router_failures_surface_as_translated_connector_errors
    (R : Routers) (conn : MongoDbConnection) :
    (∀ model args tid e s,
      R.create_record conn.database conn.session model args = (Except.error e, s) →
      conn.create_record R model args tid = (Except.error e.into_connector_error, s))
  ∧ (∀ model args skip tid e s,
      R.create_records conn.database conn.session model args skip = (Except.error e, s) →
      conn.create_records R model args skip tid = (Except.error e.into_connector_error, s))
  ∧ (∀ model rf args tid e s,
      R.update_records conn.database conn.session model rf args UpdateType.many
        = (Except.error e, s) →
      conn.update_records R model rf args tid = (Except.error e.into_connector_error, s))
  ∧ (∀ model rf args tid e s,
      R.update_records conn.database conn.session model rf args UpdateType.one
        = (Except.error e, s) →
      conn.update_record R model rf args tid = (Except.error e.into_connector_error, s))
  ∧ (∀ model rf tid e s,
      R.delete_records conn.database conn.session model rf = (Except.error e, s) →
      conn.delete_records R model rf tid = (Except.error e.into_connector_error, s))
  ∧ (∀ field pid cids tid e s,
      R.m2m_connect conn.database conn.session field pid cids = (Except.error e, s) →
      conn.m2m_connect R field pid cids tid = (Except.error e.into_connector_error, s))
  ∧ (∀ field pid cids tid e s,
      R.m2m_disconnect conn.database conn.session field pid cids = (Except.error e, s) →
      conn.m2m_disconnect R field pid cids tid = (Except.error e.into_connector_error, s))
  ∧ (∀ inputs e s,
      R.execute_raw conn.database conn.session inputs = (Except.error e, s) →
      conn.execute_raw R inputs = (Except.error e.into_connector_error, s))
  ∧ (∀ model inputs qt e s,
      R.query_raw conn.database conn.session model inputs qt = (Except.error e, s) →
      conn.query_raw R model inputs qt = (Except.error e.into_connector_error, s))
  ∧ (∀ model f sel aggr tid e s,
      R.get_single_record conn.database conn.session model f sel aggr = (Except.error e, s) →
      conn.get_single_record R model f sel aggr tid
        = (Except.error e.into_connector_error, s))
  ∧ (∀ model qa sel aggr tid e s,
      R.get_many_records conn.database conn.session model qa sel aggr = (Except.error e, s) →
      conn.get_many_records R model qa sel aggr tid
        = (Except.error e.into_connector_error, s))
  ∧ (∀ field ids tid e s,
      R.get_related_m2m_record_ids conn.database conn.session field ids
        = (Except.error e, s) →
      conn.get_related_m2m_record_ids R field ids tid
        = (Except.error e.into_connector_error, s))
  ∧ (∀ model qa sels gb hav tid e s,
      R.aggregate conn.database conn.session model qa sels gb hav = (Except.error e, s) →
      conn.aggregate_records R model qa sels gb hav tid
        = (Except.error e.into_connector_error, s)) := by
  refine ⟨?_, ?_, ?_, ?_, ?_, ?_, ?_, ?_, ?_, ?_, ?_, ?_, ?_⟩ <;>
    intros <;> rename_i h <;>
    simp [MongoDbConnection.create_record, MongoDbConnection.create_records,
      MongoDbConnection.update_records, MongoDbConnection.update_record,
      MongoDbConnection.delete_records, MongoDbConnection.m2m_connect,
      MongoDbConnection.m2m_disconnect, MongoDbConnection.execute_raw,
      MongoDbConnection.query_raw, MongoDbConnection.get_single_record,
      MongoDbConnection.get_many_records, MongoDbConnection.get_related_m2m_record_ids,
      MongoDbConnection.aggregate_records, catchScope, h]

/-- Witness for C1: on the concrete failing router `RoutersErr`, a
`create_record` call surfaces the translated backend failure. -/
theorem c1_witness :
    connEx.create_record RoutersErr modelEx argsEx none
      = (Except.error errEx.into_connector_error, bumpSession sessionEx) :=
  (c1_router_failures_surface_as_translated_connector_errors RoutersErr connEx).1
    modelEx argsEx none errEx (bumpSession sessionEx) rfl

/-- C3: `start_transaction (some level)` always returns the translated
`Unsupported` error with the session untouched, whatever the router
environment — so the backend transaction-start call is never attempted (the
result does not depend on `R.new_transaction` at all); with `none` it proceeds
to construct the transaction from the session, returning exactly what
`MongoDbTransaction::new` produced. -/
theorem c3_start_transaction_rejects_isolation_levels
    (R : Routers) (conn : MongoDbConnection) :
    (∀ level, conn.start_transaction R (some level)
        = (Except.error (MongoError.unsupported
            "Mongo does not support setting transaction isolation levels.").into_connector_error,
           conn.session))
  ∧ conn.start_transaction R none = R.new_transaction conn := by
  constructor
  · intro level
    simp [MongoDbConnection.start_transaction]
  · cases h : R.new_transaction conn with
    | mk fst snd =>
      cases fst <;> simp [MongoDbConnection.start_transaction, h]

/-- C8: `start_transaction` rejects every `some`-valued isolation level with
the same `Unsupported` connector error regardless of the string's content —
the two results for any two strings are identical, because the code tests only
`isolation_level.is_some()`, never the value. -/
theorem c8_start_transaction_tests_presence_not_value
    (R : Routers) (conn : MongoDbConnection) (level other : String) :
    conn.start_transaction R (some level) = conn.start_transaction R (some other)
  ∧ (conn.start_transaction R (some level)).1
      = Except.error (ConnectorError.unsupportedFeature
          "Mongo does not support setting transaction isolation levels.") := by
  constructor
  · simp [MongoDbConnection.start_transaction]
  · simp [MongoDbConnection.start_transaction, MongoError.into_connector_error]

/-- C4 counterexample: the claim ties `update_record`'s result to the router
list backing `update_records` (the `UpdateType::Many` request).  On the router
environment `RoutersSplit`, whose One-request returns `[resA]` while the
Many-request for the same filter and args returns `[resA, resB]`,
`update_record` returns `some resA`, but the last element of the list the
Many-request would have produced is `resB ≠ resA` — so the claim as stated is
false. -/
theorem c4_counterexample :
    (connEx.update_record RoutersSplit modelEx filterEx argsEx none).1
      = Except.ok (some resA)
  ∧ (RoutersSplit.update_records connEx.database connEx.session modelEx filterEx argsEx
      UpdateType.many).1 = Except.ok [resA, resB]
  ∧ ([resA, resB] : List SelectionResult).getLast? = some resB
  ∧ resA ≠ resB := by
  refine ⟨rfl, rfl, rfl, ?_⟩
  decide

/-- C4 (amended): for every model, record filter and write args,
`update_record` returns `None` when the router's result list for its own
`UpdateType::One` request is empty, and otherwise `Some` of the **last**
element of that list — never the first element of a longer list and never an
aggregate — together with the session that request produced. -/
theorem c4_update_record_pops_last_of_its_one_request
    (R : Routers) (conn : MongoDbConnection) (model : Model)
    (record_filter : RecordFilter) (args : WriteArgs) (tid : Option String)
    (l : List SelectionResult) (s : ClientSession)
    (h : R.update_records conn.database conn.session model record_filter args UpdateType.one
        = (Except.ok l, s)) :
    conn.update_record R model record_filter args tid = (Except.ok l.getLast?, s) := by
  simp [MongoDbConnection.update_record, h, catchScope]

/-- Witness for C4's amended theorem at the concrete router `RoutersSplit`. -/
theorem c4_witness :
    connEx.update_record RoutersSplit modelEx filterEx argsEx none
      = (Except.ok (some resA), connEx.session) := by
  simpa using
    c4_update_record_pops_last_of_its_one_request RoutersSplit connEx modelEx filterEx
      argsEx none [resA] connEx.session rfl

/-- C5: for every model, record filter and write args, `update_records`
requests a `UpdateType::Many` update from the write router and returns exactly
the length of the result list the router produced (the count of affected
records), not the list itself. -/
theorem c5_update_records_returns_count
    (R : Routers) (conn : MongoDbConnection) (model : Model)
    (record_filter : RecordFilter) (args : WriteArgs) (tid : Option String)
    (l : List SelectionResult) (s : ClientSession)
    (h : R.update_records conn.database conn.session model record_filter args UpdateType.many
        = (Except.ok l, s)) :
    conn.update_records R model record_filter args tid = (Except.ok l.length, s) := by
  simp [MongoDbConnection.update_records, h, catchScope]

/-- Witness for C5 at the concrete router `RoutersOk`, whose Many-request
returns a two-element list: the method returns the count 2. -/
theorem c5_witness :
    connEx.update_records RoutersOk modelEx filterEx argsEx none
      = (Except.ok 2, bumpSession sessionEx) := by
  simpa using
    c5_update_records_returns_count RoutersOk connEx modelEx filterEx argsEx none
      [resA, resB] (bumpSession sessionEx) rfl

/-- C6: `native_upsert_record` always fails with the programming-error class
outcome (`PanicOr.panic`, the Rust `unimplemented!` panic — a constructor
distinct from any recoverable `Except ConnectorError` result), and the outcome
is identical for every router environment and every connection, so no
Operation Router is ever invoked and the session is never touched. -/
theorem c6_native_upsert_record_always_panics
    (R : Routers) (conn : MongoDbConnection) (upsert : NativeUpsert)
    (tid : Option String) :
    conn.native_upsert_record R upsert tid
      = PanicOr.panic "Native upsert is not currently supported."
  ∧ ∀ (Q : Routers) (conn2 : MongoDbConnection),
      conn.native_upsert_record R upsert tid = conn2.native_upsert_record Q upsert tid :=
  ⟨rfl, fun _ _ => rfl⟩

/-- C7: every operation method other than `update_record` and `update_records`
is exactly the Error Translator scope composed with the matching Operation
Router applied to `(conn.database, conn.session, …arguments)` — on success the
router's result is returned completely unchanged. -/
theorem c7_methods_are_catch_of_matching_router
    (R : Routers) (conn : MongoDbConnection) :
    (∀ model args tid, conn.create_record R model args tid
      = catchScope (R.create_record conn.database conn.session model args))
  ∧ (∀ model args skip tid, conn.create_records R model args skip tid
      = catchScope (R.create_records conn.database conn.session model args skip))
  ∧ (∀ model rf tid, conn.delete_records R model rf tid
      = catchScope (R.delete_records conn.database conn.session model rf))
  ∧ (∀ field pid cids tid, conn.m2m_connect R field pid cids tid
      = catchScope (R.m2m_connect conn.database conn.session field pid cids))
  ∧ (∀ field pid cids tid, conn.m2m_disconnect R field pid cids tid
      = catchScope (R.m2m_disconnect conn.database conn.session field pid cids))
  ∧ (∀ inputs, conn.execute_raw R inputs
      = catchScope (R.execute_raw conn.database conn.session inputs))
  ∧ (∀ model inputs qt, conn.query_raw R model inputs qt
      = catchScope (R.query_raw conn.database conn.session model inputs qt))
  ∧ (∀ model f sel aggr tid, conn.get_single_record R model f sel aggr tid
      = catchScope (R.get_single_record conn.database conn.session model f sel aggr))
  ∧ (∀ model qa sel aggr tid, conn.get_many_records R model qa sel aggr tid
      = catchScope (R.get_many_records conn.database conn.session model qa sel aggr))
  ∧ (∀ field ids tid, conn.get_related_m2m_record_ids R field ids tid
      = catchScope (R.get_related_m2m_record_ids conn.database conn.session field ids))
  ∧ (∀ model qa sels gb hav tid, conn.aggregate_records R model qa sels gb hav tid
      = catchScope (R.aggregate conn.database conn.session model qa sels gb hav)) := by
  refine ⟨?_, ?_, ?_, ?_, ?_, ?_, ?_, ?_, ?_, ?_, ?_⟩ <;> intros <;> rfl

/-- C9: `update_record` and `update_records` both call the write router
`write::update_records` on the connection's database and session, but with
different update-type flags: `update_record`'s result is fully determined by
the router's `UpdateType::One` entry on those arguments, `update_records`'s by
the `UpdateType::Many` entry, and the two flags are distinct — so the two
methods are not the same router request differing only in result reduction. -/
theorem c9_update_methods_pass_different_update_flags :
    (∀ (R Q : Routers) (conn : MongoDbConnection) model rf args tid,
      R.update_records conn.database conn.session model rf args UpdateType.one
        = Q.update_records conn.database conn.session model rf args UpdateType.one →
      conn.update_record R model rf args tid = conn.update_record Q model rf args tid)
  ∧ (∀ (R Q : Routers) (conn : MongoDbConnection) model rf args tid,
      R.update_records conn.database conn.session model rf args UpdateType.many
        = Q.update_records conn.database conn.session model rf args UpdateType.many →
      conn.update_records R model rf args tid = conn.update_records Q model rf args tid)
  ∧ UpdateType.one ≠ UpdateType.many := by
  refine ⟨?_, ?_, by decide⟩ <;> intros <;> rename_i h <;>
    simp only [MongoDbConnection.update_record, MongoDbConnection.update_records, h]

/-- Witness for C9: `RoutersOk` and `RoutersAlt` share the write-update router
entry, so both update methods agree on them at concrete arguments. -/
theorem c9_witness :
    connEx.update_record RoutersOk modelEx filterEx argsEx none
      = connEx.update_record RoutersAlt modelEx filterEx argsEx none :=
  c9_update_methods_pass_different_update_flags.1 RoutersOk RoutersAlt connEx modelEx
    filterEx argsEx none rfl

/-- C10: every operation method taking a `_trace_id` parameter ignores it
entirely: two calls from the same state differing only in the trace id return
the same result and leave the same session. -/
theorem c10_trace_id_is_ignored (R : Routers) (conn : MongoDbConnection) :
    (∀ model args t u, conn.create_record R model args t = conn.create_record R model args u)
  ∧ (∀ model args skip t u,
      conn.create_records R model args skip t = conn.create_records R model args skip u)
  ∧ (∀ model rf args t u,
      conn.update_records R model rf args t = conn.update_records R model rf args u)
  ∧ (∀ model rf args t u,
      conn.update_record R model rf args t = conn.update_record R model rf args u)
  ∧ (∀ model rf t u, conn.delete_records R model rf t = conn.delete_records R model rf u)
  ∧ (∀ field pid cids t u,
      conn.m2m_connect R field pid cids t = conn.m2m_connect R field pid cids u)
  ∧ (∀ field pid cids t u,
      conn.m2m_disconnect R field pid cids t = conn.m2m_disconnect R field pid cids u)
  ∧ (∀ upsert t u,
      conn.native_upsert_record R upsert t = conn.native_upsert_record R upsert u)
  ∧ (∀ model f sel aggr t u,
      conn.get_single_record R model f sel aggr t = conn.get_single_record R model f sel aggr u)
  ∧ (∀ model qa sel aggr t u,
      conn.get_many_records R model qa sel aggr t = conn.get_many_records R model qa sel aggr u)
  ∧ (∀ field ids t u,
      conn.get_related_m2m_record_ids R field ids t
        = conn.get_related_m2m_record_ids R field ids u)
  ∧ (∀ model qa sels gb hav t u,
      conn.aggregate_records R model qa sels gb hav t
        = conn.aggregate_records R model qa sels gb hav u) := by
  refine ⟨?_, ?_, ?_, ?_, ?_, ?_, ?_, ?_, ?_, ?_, ?_, ?_⟩ <;> intros <;> rfl
